import Mathlib

/-!
Shallow embedding of the gtfsbeat ingestion/denormalization pipeline
(src/beater/gtfsbeat.go, src/config/config.go) for checking the spec's
claims. Go strings are modelled as byte lists; Go pointers to values as
`Option`; a Go panic as an `Option.none` result of the embedded function.
float32/float64 arithmetic is modelled over `ℚ` (the claims about numeric
conversion are stated "to floating-point tolerance").
-/

namespace Gtfsbeat

/-- A Go string: its UTF-8 bytes. -/
abbrev GoStr := List Nat

/-- UTF-8 encoding of a valid Unicode code point (as Go's encoder emits it). -/
def utf8Encode (c : Nat) : List Nat :=
  if c < 0x80 then [c]
  else if c < 0x800 then [0xC0 + c / 64, 0x80 + c % 64]
  else if c < 0x10000 then [0xE0 + c / 4096, 0x80 + c / 64 % 64, 0x80 + c % 64]
  else [0xF0 + c / 262144, 0x80 + c / 4096 % 64, 0x80 + c / 64 % 64, 0x80 + c % 64]

/-- Go's conversion `string(i)` of an integer to a one-rune string: the UTF-8
encoding of the code point, with any invalid code point (out of range or a
surrogate) replaced by U+FFFD. -/
def goRuneString (c : Nat) : GoStr :=
  if c ≤ 0x10FFFF ∧ ¬(0xD800 ≤ c ∧ c ≤ 0xDFFF) then utf8Encode c
  else utf8Encode 0xFFFD

/-- Byte list of a Lean string literal (used to write Go string literals). -/
def gs (s : String) : GoStr := (s.data.map Char.toNat).flatMap utf8Encode

/-- The FNV-1a 32-bit hash (Go's `hash/fnv` `New32a`; `Write` then `Sum32`). -/
def fnv32a (bytes : GoStr) : Nat :=
  bytes.foldl (fun h b => ((h ^^^ b) * 16777619) % 4294967296) 2166136261

/-- Go's uint64 → int64 conversion (two's-complement wrap), for
`time.Unix(int64(*vehicle.Timestamp), 0)`. -/
def int64OfUint64 (n : Nat) : Int :=
  if n % 2 ^ 64 < 2 ^ 63 then ((n % 2 ^ 64 : Nat) : Int)
  else ((n % 2 ^ 64 : Nat) : Int) - 2 ^ 64

/-- The zero `time.Time` (January 1, year 1, UTC) as Unix seconds: the value a
`beat.Event`'s `Timestamp` holds when the transform never sets it, and the
value `time.Parse` returns alongside a non-nil error. -/
def goZeroTime : Int := -62135596800

/-! ### GTFS-realtime entity types

Modelled from the spec: the `transit_realtime` package (generated from the
GTFS-realtime protobuf schema) is not under src/; these structures follow
§3 DATA MODEL (optional fields as `Option`, enums as their wire codes with
proto2 getter defaults). -/

structure TimeRange where
  start : Option Nat := none
  end' : Option Nat := none
  deriving DecidableEq, Repr

structure TripDescriptor where
  tripId : Option GoStr := none
  routeId : Option GoStr := none
  directionId : Option Nat := none
  startTime : Option GoStr := none
  startDate : Option GoStr := none
  scheduleRelationship : Option Nat := none
  deriving DecidableEq, Repr

structure VehicleDescriptor where
  id : Option GoStr := none
  label : Option GoStr := none
  licensePlate : Option GoStr := none
  deriving DecidableEq, Repr

structure Position where
  latitude : Option ℚ := none
  longitude : Option ℚ := none
  bearing : Option ℚ := none
  odometer : Option ℚ := none
  speed : Option ℚ := none
  deriving DecidableEq, Repr

structure VehiclePosition where
  trip : Option TripDescriptor := none
  vehicle : Option VehicleDescriptor := none
  position : Option Position := none
  currentStopSequence : Option Nat := none
  stopId : Option GoStr := none
  currentStatus : Option Nat := none
  timestamp : Option Nat := none
  congestionLevel : Option Nat := none
  occupancyStatus : Option Nat := none
  deriving DecidableEq, Repr

structure Translation where
  text : GoStr
  language : Option GoStr := none
  deriving DecidableEq, Repr

structure TranslatedString where
  translation : List Translation := []
  deriving DecidableEq, Repr

structure EntitySelector where
  agencyId : Option GoStr := none
  routeId : Option GoStr := none
  routeType : Option Int := none
  trip : Option TripDescriptor := none
  stopId : Option GoStr := none
  deriving DecidableEq, Repr

structure Alert where
  activePeriod : List TimeRange := []
  informedEntity : List EntitySelector := []
  cause : Option Nat := none
  effect : Option Nat := none
  url : Option TranslatedString := none
  headerText : Option TranslatedString := none
  descriptionText : Option TranslatedString := none
  deriving DecidableEq, Repr

structure StopTimeEvent where
  delay : Option Int := none
  time : Option Int := none
  uncertainty : Option Int := none
  deriving DecidableEq, Repr

structure TripUpdate where
  trip : Option TripDescriptor := none
  vehicle : Option VehicleDescriptor := none
  timestamp : Option Nat := none
  delay : Option Int := none
  deriving DecidableEq, Repr

structure FeedEntity where
  id : Option GoStr := none
  isDeleted : Option Bool := none
  tripUpdate : Option TripUpdate := none
  vehicle : Option VehiclePosition := none
  alert : Option Alert := none
  deriving DecidableEq, Repr

/-! Proto2 enum display names (`.String()` of each getter), with the getters'
schema defaults when the field is unset. Modelled from the spec:
"Enum-to-string resolution ... with an explicit unknown/unspecified fallback". -/

def scheduleRelationshipName (c : Nat) : String :=
  match c with
  | 0 => "SCHEDULED" | 1 => "ADDED" | 2 => "UNSCHEDULED" | 3 => "CANCELED"
  | _ => toString c

def vehicleStopStatusName (c : Nat) : String :=
  match c with
  | 0 => "INCOMING_AT" | 1 => "STOPPED_AT" | 2 => "IN_TRANSIT_TO"
  | _ => toString c

def congestionLevelName (c : Nat) : String :=
  match c with
  | 0 => "UNKNOWN_CONGESTION_LEVEL" | 1 => "RUNNING_SMOOTHLY" | 2 => "STOP_AND_GO"
  | 3 => "CONGESTION" | 4 => "SEVERE_CONGESTION"
  | _ => toString c

def occupancyStatusName (c : Nat) : String :=
  match c with
  | 0 => "EMPTY" | 1 => "MANY_SEATS_AVAILABLE" | 2 => "FEW_SEATS_AVAILABLE"
  | 3 => "STANDING_ROOM_ONLY" | 4 => "CRUSHED_STANDING_ROOM_ONLY" | 5 => "FULL"
  | 6 => "NOT_ACCEPTING_PASSENGERS"
  | _ => toString c

def causeName (c : Nat) : String :=
  match c with
  | 1 => "UNKNOWN_CAUSE" | 2 => "OTHER_CAUSE" | 3 => "TECHNICAL_PROBLEM"
  | 4 => "STRIKE" | 5 => "DEMONSTRATION" | 6 => "ACCIDENT" | 7 => "HOLIDAY"
  | 8 => "WEATHER" | 9 => "MAINTENANCE" | 10 => "CONSTRUCTION"
  | 11 => "POLICE_ACTIVITY" | 12 => "MEDICAL_EMERGENCY"
  | _ => toString c

def effectName (c : Nat) : String :=
  match c with
  | 1 => "NO_SERVICE" | 2 => "REDUCED_SERVICE" | 3 => "SIGNIFICANT_DELAYS"
  | 4 => "DETOUR" | 5 => "ADDITIONAL_SERVICE" | 6 => "MODIFIED_SERVICE"
  | 7 => "OTHER_EFFECT" | 8 => "UNKNOWN_EFFECT" | 9 => "STOP_MOVED"
  | _ => toString c

/-! ### beat.Event model

A `beat.Event` (external libbeat collaborator: the "external sink" record of
the spec) is a record timestamp, an identity (set by `SetID`) and a map of
field paths to values. `PutValue` overwrites; an association list consed at
the front with first-match lookup models that. The `timestamp` starts at the
zero `time.Time`. -/

inductive Value where
  | str : GoStr → Value
  | u32 : Nat → Value
  | u64 : Nat → Value
  | f32 : ℚ → Value
  | f64 : ℚ → Value
  /-- a `fmt.Sprint`/`Sprintf`-formatted "lat,long" pair -/
  | posFmt : ℚ → ℚ → Value
  /-- a `time.Time` value: year, month, day, hour, minute, second -/
  | dateTime : Nat → Nat → Nat → Nat → Nat → Nat → Value
  | ranges : List TimeRange → Value
  | trans : Translation → Value
  deriving DecidableEq, Repr

structure Event where
  timestamp : Int := goZeroTime
  id : Option GoStr := none
  fields : List (String × Value) := []
  deriving DecidableEq, Repr

def putValue (e : Event) (k : String) (v : Value) : Event :=
  { e with fields := (k, v) :: e.fields }

def getField (e : Event) (k : String) : Option Value :=
  e.fields.lookup k

/-! ### src/beater/gtfsbeat.go: helpers -/

def addStringIfNotEmpty (key : String) (val : GoStr) (e : Event) : Event :=
  if val.length > 0 then putValue e key (.str val) else e

def addStringIfNotNull (key : String) (val : Option GoStr) (e : Event) : Event :=
  match val with
  | some v => addStringIfNotEmpty key v e
  | none => e

def addUint32IfNotNull (key : String) (val : Option Nat) (e : Event) : Event :=
  match val with
  | some v => putValue e key (.u32 v)
  | none => e

def addFloat32IfNotNull (key : String) (val : Option ℚ) (e : Event) : Event :=
  match val with
  | some v => putValue e key (.f32 v)
  | none => e

def addFloat64IfNotNull (key : String) (val : Option ℚ) (e : Event) : Event :=
  match val with
  | some v => putValue e key (.f64 v)
  | none => e

/-! ### Static stop data (src/beater/gtfsbeat.go `Stop`, `GeoPoint`) -/

structure GeoPoint where
  lat : ℚ
  long : ℚ
  deriving DecidableEq, Repr

structure Stop where
  id : GoStr := []
  locationType : GoStr := []
  parentStation : GoStr := []
  code : GoStr := []
  description : GoStr := []
  name : GoStr := []
  position : GeoPoint := ⟨0, 0⟩
  timezone : GoStr := []
  url : GoStr := []
  wheelcharBoarding : Nat := 0
  zoneId : GoStr := []
  deriving DecidableEq, Repr

/-- `addStop` (gtfsbeat.go lines 158-179), including the repeated `stop.id`
puts and the `stop.pos` field emitted only when the latitude is nonzero
(the source formats it with `fmt.Sprint`, modelled as `Value.posFmt`). -/
def addStop (stop : Stop) (e : Event) : Event :=
  let e := addStringIfNotEmpty "stop.id" stop.id e
  let e := addStringIfNotEmpty "stop.location_type" stop.locationType e
  let e := addStringIfNotEmpty "stop.parent_station" stop.parentStation e
  let e := addStringIfNotEmpty "stop.code" stop.code e
  let e := addStringIfNotEmpty "stop.desc" stop.description e
  let e := addStringIfNotEmpty "stop.name" stop.name e
  let e := addStringIfNotEmpty "stop.timezone" stop.timezone e
  let e := addStringIfNotEmpty "stop.url" stop.url e
  let e := if stop.position.lat ≠ 0 then
    putValue e "stop.pos" (.posFmt stop.position.lat stop.position.long) else e
  let e := putValue e "stop.wheelchair_boarding" (.u64 stop.wheelcharBoarding)
  let e := addStringIfNotEmpty "stop.zone_id" stop.zoneId e
  let e := addStringIfNotEmpty "stop.id" stop.id e
  let e := addStringIfNotEmpty "stop.id" stop.id e
  let e := addStringIfNotEmpty "stop.id" stop.id e
  let e := addStringIfNotEmpty "stop.id" stop.id e
  addStringIfNotEmpty "stop.id" stop.id e

/-! ### Date/time parsing (Go `time` package, external collaborator)

`time.Parse` with the layouts the source uses, over byte strings; a parse
error is `none`, and the caller sees the zero `time.Time` alongside it. -/

def isDigit (b : Nat) : Bool := decide (48 ≤ b) && decide (b ≤ 57)

def digitsVal (l : GoStr) : Nat := l.foldl (fun a b => a * 10 + (b - 48)) 0

def isLeapYear (y : Nat) : Bool :=
  decide (y % 4 = 0) && (decide (y % 100 ≠ 0) || decide (y % 400 = 0))

def daysInMonth (y m : Nat) : Nat :=
  match m with
  | 2 => if isLeapYear y then 29 else 28
  | 4 | 6 | 9 | 11 => 30
  | _ => 31

/-- A calendar date (the `year, month, day := date.Date()` triple). -/
structure GoDate where
  year : Nat
  month : Nat
  day : Nat
  deriving DecidableEq, Repr

/-- `time.Parse("20060102", s)`: exactly eight digits forming a valid date. -/
def parseYYYYMMDD (s : GoStr) : Option GoDate :=
  match s with
  | [y1, y2, y3, y4, m1, m2, d1, d2] =>
    if ([y1, y2, y3, y4, m1, m2, d1, d2].all isDigit) then
      let y := digitsVal [y1, y2, y3, y4]
      let mo := digitsVal [m1, m2]
      let d := digitsVal [d1, d2]
      if 1 ≤ mo ∧ mo ≤ 12 ∧ 1 ≤ d ∧ d ≤ daysInMonth y mo then some ⟨y, mo, d⟩
      else none
    else none
  | _ => none

/-- `time.Parse("20060102 15:04:05", s)`: eight date digits, a space, and a
colon-separated 24-hour clock time, consuming the whole string. -/
def parseDateTimeLayout (s : GoStr) : Option Value :=
  if s.length = 17 ∧ (s.take 8).all isDigit ∧ s.get? 8 = some 32 ∧
      ((s.drop 9).take 2).all isDigit ∧ s.get? 11 = some 58 ∧
      ((s.drop 12).take 2).all isDigit ∧ s.get? 14 = some 58 ∧
      ((s.drop 15).take 2).all isDigit then
    let y := digitsVal (s.take 4)
    let mo := digitsVal ((s.drop 4).take 2)
    let d := digitsVal ((s.drop 6).take 2)
    let hr := digitsVal ((s.drop 9).take 2)
    let mi := digitsVal ((s.drop 12).take 2)
    let sec := digitsVal ((s.drop 15).take 2)
    if 1 ≤ mo ∧ mo ≤ 12 ∧ 1 ≤ d ∧ d ≤ daysInMonth y mo ∧
        hr ≤ 23 ∧ mi ≤ 59 ∧ sec ≤ 59 then
      some (.dateTime y mo d hr mi sec)
    else none
  else none

/-- `addTrip` (gtfsbeat.go lines 181-208). `now` is `time.Now()`'s calendar
date. When `StartDate` parses, the source's else-branch resets `date` to
`time.Now()`; when it fails, `date` keeps `time.Parse`'s zero time (year 1,
January 1). The final parse input is built with Go's `string(int)` rune
conversions of year, month and day. -/
def addTrip (now : GoDate) (trip : Option TripDescriptor) (e : Event) : Event :=
  match trip with
  | none => e
  | some t =>
    let e := addStringIfNotNull "trip.id" t.tripId e
    let e := addStringIfNotNull "trip.route_id" t.routeId e
    let e := addUint32IfNotNull "trip.direction_id" t.directionId e
    let e := putValue e "trip.state"
      (.str (gs (scheduleRelationshipName (t.scheduleRelationship.getD 0))))
    let e := addStringIfNotNull "trip.id" t.tripId e
    match t.startTime with
    | none => e
    | some st =>
      let date : GoDate :=
        match t.startDate with
        | none => now
        | some sd =>
          match parseYYYYMMDD sd with
          | some _ => now
          | none => ⟨1, 1, 1⟩
      let s := goRuneString date.year ++ goRuneString date.month ++
        goRuneString date.day ++ [32] ++ st
      match parseDateTimeLayout s with
      | none => e
      | some v => putValue e "trip.start_time" v

/-- `addVehicleDescriptors` (gtfsbeat.go lines 210-216). -/
def addVehicleDescriptors (vd : Option VehicleDescriptor) (e : Event) : Event :=
  match vd with
  | none => e
  | some v =>
    let e := addStringIfNotNull "vehicle.id" v.id e
    let e := addStringIfNotNull "vehicle.label" v.label e
    addStringIfNotNull "vehicle.license_plate" v.licensePlate e

/-! ### The three denormalization operations -/

/-- The informed-entity identity `DenormalizeAlert` builds (lines 228-242):
agency id, route id and stop id concatenated (absent → empty), then — when
the description is present — Go's `string(h.Sum32())` rune rendering of the
FNV-32a hash of the first translation's text. Indexing `GetTranslation()[0]`
of an empty translation list panics (`none`). -/
def catIds (ent : EntitySelector) : GoStr :=
  ent.agencyId.getD [] ++ ent.routeId.getD [] ++ ent.stopId.getD []

def firstTranslation (ts : TranslatedString) : Option Translation :=
  match ts.translation with
  | [] => none
  | t :: _ => some t

def descSuffix (a : Alert) : Option GoStr :=
  match a.descriptionText with
  | none => some []
  | some ts => (firstTranslation ts).map (fun t => goRuneString (fnv32a t.text))

def informedId (a : Alert) (ent : EntitySelector) : Option GoStr :=
  (descSuffix a).map (fun suf => catIds ent ++ suf)

/-- One of the three analogous `if alert.X != nil { event.PutValue(key,
X.GetTranslation()[0]) }` blocks (lines 249-257): indexing `[0]` of an
empty translation list panics (`none`). -/
def putFirstTranslation (key : String) (ts? : Option TranslatedString)
    (e : Event) : Option Event :=
  match ts? with
  | none => some e
  | some ts => (firstTranslation ts).map (fun t => putValue e key (.trans t))

/-- One loop iteration of `DenormalizeAlert` (lines 226-264) for one informed
entity. Note the source passes `entity.AgencyId` to the `route_id`,
`route_type` and `stop` fields as well. `none` models the panic on an empty
translation list. -/
def alertEventForEntity (now : GoDate) (a : Alert) (trs : List TimeRange)
    (ent : EntitySelector) : Option Event := do
  let idStr ← informedId a ent
  let e : Event := { id := some idStr }
  let e := putValue e "alert_cause" (.str (gs (causeName (a.cause.getD 1))))
  let e := putValue e "alert_effect" (.str (gs (effectName (a.effect.getD 8))))
  let e := if trs.length > 0 then putValue e "active_period" (.ranges trs) else e
  let e ← putFirstTranslation "url" a.url e
  let e ← putFirstTranslation "description" a.descriptionText e
  let e ← putFirstTranslation "header" a.headerText e
  let e := addStringIfNotNull "agency_id" ent.agencyId e
  let e := addStringIfNotNull "route_id" ent.agencyId e
  let e := addStringIfNotNull "route_type" ent.agencyId e
  let e := addStringIfNotNull "stop" ent.agencyId e
  some (addTrip now ent.trip e)

/-- `DenormalizeAlert` (gtfsbeat.go lines 219-266): one event per informed
entity; a panic anywhere in the loop aborts the whole call (`none`). -/
def denormalizeAlert (now : GoDate) (a : Alert) : Option (List Event) :=
  let trs := a.activePeriod.map (fun t => ({ start := t.start, end' := t.end' } : TimeRange))
  a.informedEntity.mapM (alertEventForEntity now a trs)

/-- mph per m/s: the source's constant `2.2369362921` exactly. -/
def mphPerMps : ℚ := 22369362921 / 10000000000

/-- `Gtfsbeat.TransformVehicle` (gtfsbeat.go lines 269-308). `stops` is the
receiver's stop map, `now` is `time.Now()`'s date (used by `addTrip`).
`none` models the panic: when a stop id is present the source logs
`*vehicle.CurrentStopSequence` unguarded, a nil dereference if the
current-stop-sequence is absent. -/
def transformVehicle (stops : List (GoStr × Stop)) (now : GoDate)
    (v : VehiclePosition) : Option Event :=
  let e : Event := { fields := [] }
  let e := putValue e "congestion" (.str (gs (congestionLevelName (v.congestionLevel.getD 0))))
  let e := putValue e "occupancy" (.str (gs (occupancyStatusName (v.occupancyStatus.getD 0))))
  let e := putValue e "stop_status" (.str (gs (vehicleStopStatusName (v.currentStatus.getD 2))))
  let e := addTrip now v.trip e
  let e := addVehicleDescriptors v.vehicle e
  let e := match v.position with
    | none => e
    | some p =>
      let e := match p.latitude, p.longitude with
        | some la, some lo => putValue e "pos" (.posFmt la lo)
        | _, _ => e
      let e := addFloat32IfNotNull "bearing" p.bearing e
      let e := addFloat64IfNotNull "odometer_meters" p.odometer e
      let e := addFloat32IfNotNull "speed_meters_per_sec" p.speed e
      let e := match p.speed with
        | some sp => putValue e "speed_mph" (.f32 (sp * mphPerMps))
        | none => e
      addFloat32IfNotNull "speed_meters_per_sec" p.speed e
  let e := addUint32IfNotNull "stop_seq" v.currentStopSequence e
  let e := match v.timestamp with
    | some ts => { e with timestamp := int64OfUint64 ts }
    | none => e
  let withStop : Option Event :=
    match v.stopId with
    | none => some e
    | some sid =>
      match v.currentStopSequence with
      | none => none
      | some _ =>
        let e := putValue e "stop.id" (.str sid)
        some (match stops.lookup sid with
          | some st => addStop st e
          | none => e)
  withStop.map (fun e =>
    putValue e "stop_status" (.str (gs (vehicleStopStatusName (v.currentStatus.getD 2)))))

/-- `DenormalizeTripUpdate` (gtfsbeat.go lines 311-317): only the trip and
vehicle descriptors are copied. -/
def denormalizeTripUpdate (now : GoDate) (tu : TripUpdate) : Event :=
  addVehicleDescriptors tu.vehicle (addTrip now tu.trip ({} : Event))

/-! ### The poll loop's per-cycle event collection (`Gtfsbeat.Run`,
gtfsbeat.go lines 447-461): given a successfully fetched entity list, the
loop appends `TransformVehicle`'s record for each entity whose vehicle is
present and nothing for any other entity; trip updates and alerts are never
transformed. A transform panic (`none`) crashes the cycle. -/

def collectEvents (stops : List (GoStr × Stop)) (now : GoDate)
    (entities : List FeedEntity) : Option (List Event) :=
  entities.foldlM (fun evs ent =>
    match ent.vehicle with
    | some v => (transformVehicle stops now v).map (fun e => evs ++ [e])
    | none => some evs) []

/-! ### The fetcher's Last-Modified handling (`Gtfsbeat.GetGtfsFeed`,
gtfsbeat.go lines 413-421), on a status-200 response.

`header` is the `Last-Modified` header: `none` when absent or empty, and
otherwise `some parsed` where `parsed` is `http.ParseTime`'s result
(`none` = parse error, in which case the returned `time.Time` is the zero
time). The source guards the staleness check with `err != nil`, so the
check and the state update run only when parsing FAILED; `Before` is a
strict comparison. The result is whether the call returns early with
`(nil, nil)` ("unchanged") or proceeds to unmarshal ("changed"), paired
with the new stored last-updated time. -/

inductive FetchStep where
  | unchangedNil
  | proceed
  deriving DecidableEq, Repr

def lastModifiedStep (header : Option (Option Int)) (lastUpdated : Int) :
    FetchStep × Int :=
  match header with
  | none => (.proceed, lastUpdated)
  | some parsed =>
    match parsed with
    | some _ => (.proceed, lastUpdated)
    | none =>
      if goZeroTime < lastUpdated then (.unchangedNil, lastUpdated)
      else (.proceed, goZeroTime)

/-! ### Static stop loader (`parseStops`, gtfsbeat.go lines 319-368)

The file is modelled after `encoding/csv` has lexed it: `none` = the file
could not be opened, `some rows` = the list of records (each a list of
fields; csv never yields an empty record). `csv.Reader` sets its expected
field count from the first record and `Read` reports an error — returning
the record too — for any later record with a different count; the source
then returns the map built so far together with that error. Indexing a
returned record past its length panics. -/

abbrev Row := List GoStr

inductive StopsResult where
  /-- an out-of-range row index: the call panics -/
  | panic
  /-- a non-nil error is returned; the map alongside it is nil (`none`) or
  the partial map built so far -/
  | err (stops : Option (List (GoStr × Stop)))
  /-- EOF: the error is cleared and the map returned -/
  | ok (stops : List (GoStr × Stop))
  deriving DecidableEq, Repr

/-- `strconv.ParseUint(s, 10, 64)` (external strconv collaborator): decimal
digits only, value within 64 bits. -/
def parseUint64 (s : GoStr) : Option Nat :=
  if s ≠ [] ∧ s.all isDigit ∧ digitsVal s < 2 ^ 64 then some (digitsVal s) else none

/-- `strconv.ParseFloat(s, 64)` (external strconv collaborator), modelled on
the plain decimal forms stop tables hold: optional sign, digits, optional
fraction; exponent/hex/inf forms are out of scope. The value is exact over
`ℚ`. -/
def parseGoFloat (s : GoStr) : Option ℚ :=
  let signed : ℚ × GoStr :=
    match s with
    | 45 :: r => (-1, r)
    | 43 :: r => (1, r)
    | r => (1, r)
  match signed.2.splitOn 46 with
  | [ip] =>
    if ip ≠ [] ∧ ip.all isDigit then some (signed.1 * digitsVal ip) else none
  | [ip, fp] =>
    if (ip ≠ [] ∨ fp ≠ []) ∧ ip.all isDigit ∧ fp.all isDigit then
      some (signed.1 * ((digitsVal ip : ℚ) + (digitsVal fp : ℚ) / 10 ^ fp.length))
    else none
  | _ => none

/-- The loader's loop: `fpr` is the csv reader's expected field count
(`none` until the first record fixes it), `acc` the map built so far
(consed at the front; first-match lookup gives Go's overwrite semantics). -/
def parseStopsRows : List Row → Option Nat → List (GoStr × Stop) → StopsResult
  | [], _, acc => .ok acc
  | r :: rest, fpr, acc =>
    if (match fpr with | some m => decide (r.length ≠ m) | none => false) then
      .err (some acc)
    else
      let fpr' := some (fpr.getD r.length)
      match r.get? 0 with
      | none => .panic
      | some c0 =>
        if c0 = gs "stop_id" then parseStopsRows rest fpr' acc
        else
          match r.get? 1, r.get? 2, r.get? 3, r.get? 6, r.get? 7, r.get? 8,
            r.get? 9, r.get? 10 with
          | some c1, some c2, some c3, some c6, some c7, some c8, some c9, some c10 =>
            (match r.get? 11 with
            | none => .panic
            | some c11 =>
              match parseUint64 c11 with
              | none => .err none
              | some wb =>
                match r.get? 4 with
                | none => .panic
                | some c4 =>
                  match parseGoFloat c4 with
                  | none => .err none
                  | some lat =>
                    match r.get? 5 with
                    | none => .panic
                    | some c5 =>
                      match parseGoFloat c5 with
                      | none => .err none
                      | some lon =>
                        let stop : Stop :=
                          { id := c0, code := c1, name := c2,
                            description := c3, zoneId := c6, url := c7,
                            locationType := c8, parentStation := c9,
                            timezone := c10, wheelcharBoarding := wb,
                            position := ⟨lat, lon⟩ }
                        parseStopsRows rest fpr' ((c0, stop) :: acc))
          | _, _, _, _, _, _, _, _ => .panic

/-- `parseStops` (gtfsbeat.go lines 319-368): `none` = `os.Open` failed, in
which case `(nil, err)` is returned. -/
def parseStops (file : Option (List Row)) : StopsResult :=
  match file with
  | none => .err none
  | some rows => parseStopsRows rows none []

/-! ### Concrete inputs used by the claim theorems -/

/-- A fixed processing date for concrete evaluations. -/
def d0 : GoDate := ⟨2025, 10, 11⟩

/-- C1's failing input: one alert, two informed entities naming routes R1 and
R2 (the first also names agency A1). -/
def aC1 : Alert :=
  { informedEntity := [
      { agencyId := some (gs "A1"), routeId := some (gs "R1") },
      { routeId := some (gs "R2") }] }

/-- C2's failing input: a feed with one alert entity and one trip-update
entity, no vehicle position. -/
def entAlertOnly : FeedEntity :=
  { alert := some { informedEntity := [{ routeId := some (gs "R1") }] } }

def entTripUpdateOnly : FeedEntity :=
  { tripUpdate := some { trip := some { tripId := some (gs "T1") } } }

/-- C3's failing input: a vehicle position whose stop id is present while the
current-stop-sequence is absent. -/
def vStopNoSeq : VehiclePosition := { stopId := some (gs "S1") }

/-- C6's failing input: a trip descriptor with start date and start time. -/
def tStart : TripDescriptor :=
  { tripId := some (gs "T1"), startDate := some (gs "20250101"),
    startTime := some (gs "08:30:00") }

/-- C7's counterexample input: a vehicle position without a feed timestamp. -/
def vNoTimestamp : VehiclePosition := { position := some { speed := some 10 } }

/-- C9's witness input: position and speed present (10 m/s). -/
def vSpeed10 : VehiclePosition := { position := some { speed := some 10 } }

/-- C4's counterexample input: two informed entities that differ only in
their trip descriptors; the alert has no description text. -/
def aTripsOnly : Alert :=
  { informedEntity := [
      { trip := some { tripId := some (gs "T1") } },
      { trip := some { tripId := some (gs "T2") } }] }

/-- C10's counterexample input: description text present with an empty
translation list, and no informed entities. -/
def aEmptyDescNoEntities : Alert :=
  { descriptionText := some { translation := [] } }

/-- C10's panic input: same empty-translation description, one informed
entity. -/
def aEmptyDescOneEntity : Alert :=
  { informedEntity := [{ routeId := some (gs "R1") }],
    descriptionText := some { translation := [] } }

/-- C8's panic input: a single one-column row (not a header), so csv accepts
it (it fixes the expected field count) and the struct literal's `row[1]`
index is out of range. -/
def shortFirstRow : List Row := [[gs "x"]]

/-- A 12-column header row. -/
def headerRow : Row :=
  [gs "stop_id", gs "stop_code", gs "stop_name", gs "stop_desc", gs "stop_lat",
   gs "stop_lon", gs "zone_id", gs "stop_url", gs "location_type",
   gs "parent_station", gs "stop_timezone", gs "wheelchair_boarding"]

/-- A well-formed 12-column stop row for stop S1. -/
def goodRow : Row :=
  [gs "S1", gs "C1", gs "Main St", gs "desc", gs "41.5", gs "-90.5", gs "z1",
   gs "http://x", gs "0", gs "", gs "UTC", gs "1"]

/-- A 12-column row whose wheelchair-boarding column is not numeric. -/
def badNumberRow : Row :=
  [gs "S2", gs "C2", gs "Elm St", gs "desc", gs "41.5", gs "-90.5", gs "z1",
   gs "http://x", gs "0", gs "", gs "UTC", gs "abc"]

/-- An 11-column row: its count differs from the 12-column header, so
`csv.Read` reports a field-count error. -/
def elevenColRow : Row :=
  [gs "S3", gs "C3", gs "Oak St", gs "desc", gs "41.5", gs "-90.5", gs "z1",
   gs "http://x", gs "0", gs "", gs "UTC"]

/-- C6's failing input carried by a vehicle position. -/
def vTripStart : VehiclePosition := { trip := some tStart }

/-- Whether the loader returned without error (C8). -/
def StopsResult.isOk : StopsResult → Bool
  | .ok _ => true
  | _ => false

/-- "Every present localized string of the alert carries at least one
translation" (C10). -/
def localizedOk (a : Alert) : Prop :=
  (∀ ts, a.url = some ts → ts.translation ≠ []) ∧
  (∀ ts, a.headerText = some ts → ts.translation ≠ []) ∧
  (∀ ts, a.descriptionText = some ts → ts.translation ≠ [])

/-- A stop row parses fully (C8): all three numeric columns are present and
parse (so the row has at least 12 columns). -/
def rowOk (r : Row) : Prop :=
  ((r.get? 11).bind parseUint64).isSome ∧
  ((r.get? 4).bind parseGoFloat).isSome ∧
  ((r.get? 5).bind parseGoFloat).isSome

/-- The header test of the loader's loop. -/
def isHeader (r : Row) : Prop := r.get? 0 = some (gs "stop_id")

/-! ### Field-map lemmas -/

theorem getField_put_eq (e : Event) (k : String) (v : Value) :
    getField (putValue e k v) k = some v := by
  simp [getField, putValue, List.lookup]

theorem getField_put_ne (e : Event) (k k' : String) (v : Value) (h : k ≠ k') :
    getField (putValue e k' v) k = getField e k := by
  have hb : (k == k') = false := by simp [h]
  simp [getField, putValue, List.lookup, hb]

theorem getField_addStringIfNotEmpty_ne (key : String) (val : GoStr) (e : Event)
    (k : String) (h : k ≠ key) :
    getField (addStringIfNotEmpty key val e) k = getField e k := by
  unfold addStringIfNotEmpty
  split
  · exact getField_put_ne e k key _ h
  · rfl

theorem getField_addStringIfNotNull_ne (key : String) (val : Option GoStr) (e : Event)
    (k : String) (h : k ≠ key) :
    getField (addStringIfNotNull key val e) k = getField e k := by
  cases val with
  | none => rfl
  | some v => exact getField_addStringIfNotEmpty_ne key v e k h

theorem getField_addUint32IfNotNull_ne (key : String) (val : Option Nat) (e : Event)
    (k : String) (h : k ≠ key) :
    getField (addUint32IfNotNull key val e) k = getField e k := by
  cases val with
  | none => rfl
  | some v => exact getField_put_ne e k key _ h

theorem getField_addFloat32IfNotNull_ne (key : String) (val : Option ℚ) (e : Event)
    (k : String) (h : k ≠ key) :
    getField (addFloat32IfNotNull key val e) k = getField e k := by
  cases val with
  | none => rfl
  | some v => exact getField_put_ne e k key _ h

theorem getField_addFloat64IfNotNull_ne (key : String) (val : Option ℚ) (e : Event)
    (k : String) (h : k ≠ key) :
    getField (addFloat64IfNotNull key val e) k = getField e k := by
  cases val with
  | none => rfl
  | some v => exact getField_put_ne e k key _ h

/-! ### Timestamp and identity preservation: only the explicit
`event.Timestamp` assignment and `SetID` touch those components. -/

@[simp] theorem timestamp_putValue (e : Event) (k : String) (v : Value) :
    (putValue e k v).timestamp = e.timestamp := rfl

@[simp] theorem timestamp_addStringIfNotEmpty (key : String) (val : GoStr) (e : Event) :
    (addStringIfNotEmpty key val e).timestamp = e.timestamp := by
  unfold addStringIfNotEmpty; split <;> rfl

@[simp] theorem timestamp_addStringIfNotNull (key : String) (val : Option GoStr) (e : Event) :
    (addStringIfNotNull key val e).timestamp = e.timestamp := by
  cases val with
  | none => rfl
  | some v => simp [addStringIfNotNull]

@[simp] theorem timestamp_addUint32IfNotNull (key : String) (val : Option Nat) (e : Event) :
    (addUint32IfNotNull key val e).timestamp = e.timestamp := by
  cases val <;> rfl

@[simp] theorem timestamp_addFloat32IfNotNull (key : String) (val : Option ℚ) (e : Event) :
    (addFloat32IfNotNull key val e).timestamp = e.timestamp := by
  cases val <;> rfl

@[simp] theorem timestamp_addFloat64IfNotNull (key : String) (val : Option ℚ) (e : Event) :
    (addFloat64IfNotNull key val e).timestamp = e.timestamp := by
  cases val <;> rfl

@[simp] theorem timestamp_addTrip (now : GoDate) (trip : Option TripDescriptor) (e : Event) :
    (addTrip now trip e).timestamp = e.timestamp := by
  cases trip with
  | none => rfl
  | some t =>
    obtain ⟨tid, rid, did, stT, stD, sch⟩ := t
    cases stT with
    | none => simp [addTrip]
    | some st =>
      simp only [addTrip]
      split <;> simp

@[simp] theorem timestamp_addVehicleDescriptors (vd : Option VehicleDescriptor) (e : Event) :
    (addVehicleDescriptors vd e).timestamp = e.timestamp := by
  cases vd with
  | none => rfl
  | some v => simp [addVehicleDescriptors]

@[simp] theorem timestamp_addStop (stop : Stop) (e : Event) :
    (addStop stop e).timestamp = e.timestamp := by
  unfold addStop
  split <;> simp

@[simp] theorem id_putValue (e : Event) (k : String) (v : Value) :
    (putValue e k v).id = e.id := rfl

@[simp] theorem id_addStringIfNotEmpty (key : String) (val : GoStr) (e : Event) :
    (addStringIfNotEmpty key val e).id = e.id := by
  unfold addStringIfNotEmpty; split <;> rfl

@[simp] theorem id_addStringIfNotNull (key : String) (val : Option GoStr) (e : Event) :
    (addStringIfNotNull key val e).id = e.id := by
  cases val with
  | none => rfl
  | some v => simp [addStringIfNotNull]

@[simp] theorem id_addUint32IfNotNull (key : String) (val : Option Nat) (e : Event) :
    (addUint32IfNotNull key val e).id = e.id := by
  cases val <;> rfl

@[simp] theorem id_addTrip (now : GoDate) (trip : Option TripDescriptor) (e : Event) :
    (addTrip now trip e).id = e.id := by
  cases trip with
  | none => rfl
  | some t =>
    obtain ⟨tid, rid, did, stT, stD, sch⟩ := t
    cases stT with
    | none => simp [addTrip]
    | some st =>
      simp only [addTrip]
      split <;> simp

/-! ### Keys the composite helpers may touch -/

theorem getField_addTrip_ne (now : GoDate) (trip : Option TripDescriptor) (e : Event)
    (k : String) (h1 : k ≠ "trip.id") (h2 : k ≠ "trip.route_id")
    (h3 : k ≠ "trip.direction_id") (h4 : k ≠ "trip.state")
    (h5 : k ≠ "trip.start_time") :
    getField (addTrip now trip e) k = getField e k := by
  cases trip with
  | none => rfl
  | some t =>
    obtain ⟨tid, rid, did, stT, stD, sch⟩ := t
    cases stT with
    | none =>
      simp [addTrip, getField_addStringIfNotNull_ne, getField_addUint32IfNotNull_ne,
        getField_put_ne, h1, h2, h3, h4]
    | some st =>
      simp only [addTrip]
      split <;>
      simp [getField_addStringIfNotNull_ne, getField_addUint32IfNotNull_ne,
        getField_put_ne, h1, h2, h3, h4, h5]

theorem getField_addVehicleDescriptors_ne (vd : Option VehicleDescriptor) (e : Event)
    (k : String) (h1 : k ≠ "vehicle.id") (h2 : k ≠ "vehicle.label")
    (h3 : k ≠ "vehicle.license_plate") :
    getField (addVehicleDescriptors vd e) k = getField e k := by
  cases vd with
  | none => rfl
  | some v =>
    simp [addVehicleDescriptors, getField_addStringIfNotNull_ne, h1, h2, h3]

theorem getField_addStop_ne (stop : Stop) (e : Event) (k : String)
    (h1 : k ≠ "stop.id") (h2 : k ≠ "stop.location_type")
    (h3 : k ≠ "stop.parent_station") (h4 : k ≠ "stop.code")
    (h5 : k ≠ "stop.desc") (h6 : k ≠ "stop.name") (h7 : k ≠ "stop.timezone")
    (h8 : k ≠ "stop.url") (h9 : k ≠ "stop.pos")
    (h10 : k ≠ "stop.wheelchair_boarding") (h11 : k ≠ "stop.zone_id") :
    getField (addStop stop e) k = getField e k := by
  unfold addStop
  split <;>
  simp [getField_addStringIfNotEmpty_ne, getField_put_ne,
    h1, h2, h3, h4, h5, h6, h7, h8, h9, h10, h11]

@[simp] theorem getField_mk_fields (t : Int) (i : Option GoStr) (e : Event) (k : String) :
    getField ⟨t, i, e.fields⟩ k = getField e k := rfl

@[simp] theorem getField_empty (t : Int) (i : Option GoStr) (k : String) :
    getField ⟨t, i, []⟩ k = none := rfl

/-! ### Claim theorems -/

/-- C1: the fan-out count is right — an alert with two informed entities
naming routes R1 and R2 yields exactly two records — but the per-entity
informed fields are not taken as the claim states: `DenormalizeAlert`
passes `entity.AgencyId` to the `route_id` (and `route_type`, `stop`)
fields, so the first record's `route_id` carries the agency id "A1" and the
second record's `route_id` is absent; neither carries "R1"/"R2". -/
theorem claim_C1_route_fields_come_from_agency_id :
    (denormalizeAlert d0 aC1).map (fun evs => evs.map (fun e => getField e "route_id")) =
      some [some (.str (gs "A1")), none] ∧
    (denormalizeAlert d0 aC1).map List.length = some 2 :=
  ⟨by decide, by decide⟩

/-- C2: the poll loop transforms only entities whose vehicle position is
present; a successfully decoded feed holding one alert entity and one
trip-update entity produces zero output records. -/
theorem claim_C2_alerts_and_trip_updates_dropped :
    collectEvents [] d0 [entAlertOnly, entTripUpdateOnly] = some [] := by
  decide

/-- C3: `TransformVehicle` dereferences `*vehicle.CurrentStopSequence` in a
log call whenever the stop id is present, without a nil check: on an input
whose stop id is present while the current-stop-sequence is absent it
panics (modelled as `none`) instead of returning a record. -/
theorem claim_C3_transform_vehicle_panics_on_missing_stop_sequence :
    transformVehicle [] d0 vStopNoSeq = none := by
  decide

/-- C5: the fetcher guards its staleness check with `err != nil`, so on a
200 response whose `Last-Modified` header PARSES the whole block is
skipped: a header later than the stored time (200 vs 100) proceeds as
changed but never advances the stored time, and a header earlier than the
stored time (50 vs 100) is not reported unchanged either. -/
theorem claim_C5_last_modified_never_advances_state :
    lastModifiedStep (some (some 200)) 100 = (.proceed, 100) ∧
    lastModifiedStep (some (some 50)) 100 = (.proceed, 100) := by
  decide

/-- C6: `addTrip` builds the `time.Parse` input with Go `string(int)` rune
conversions of year, month and day (and resets a successfully parsed
start date to `time.Now()`), so the parse fails and `trip.start_time` is
never emitted: a vehicle whose trip has start date "20250101" and start
time "08:30:00" yields a record with no `trip.start_time` field. -/
theorem claim_C6_trip_start_time_never_emitted :
    (transformVehicle [] d0 vTripStart).map (fun e => getField e "trip.start_time") =
      some none := by
  decide

/-- C7 counterexample: on a vehicle position without a feed timestamp the
produced record's timestamp is the zero `time.Time` (a negative epoch
value), not the current processing time (every wall-clock processing time
is a non-negative epoch). -/
theorem claim_C7_counterexample_timestamp_left_at_zero :
    (transformVehicle [] d0 vNoTimestamp).map Event.timestamp = some goZeroTime ∧
    goZeroTime < 0 :=
  ⟨by decide, by decide⟩

/-- C7 amended: every record `TransformVehicle` produces carries the feed's
vehicle timestamp when that field is present, and otherwise is left at the
zero time value — the transform never substitutes the processing time. -/
theorem claim_C7_timestamp_feed_or_zero (stops : List (GoStr × Stop))
    (now : GoDate) (v : VehiclePosition) :
    (transformVehicle stops now v).map Event.timestamp =
    (transformVehicle stops now v).map (fun _ =>
      match v.timestamp with
      | some t => int64OfUint64 t
      | none => goZeroTime) := by
  obtain ⟨trip, veh, pos, seq, sid, cst, ts, cong, occ⟩ := v
  rcases pos with _ | ⟨la, lo, be, od, sp⟩ <;>
  rcases sid with _ | s <;>
  rcases seq with _ | q <;>
  rcases ts with _ | t <;>
  (try rcases sp with _ | sp0) <;>
  (try rcases la with _ | la0) <;>
  (try rcases lo with _ | lo0) <;>
  simp only [transformVehicle] <;>
  (try split) <;>
  simp

/-- C9: whenever `TransformVehicle` returns a record, its `speed_mph` field
is exactly the position's speed (meters/sec) times 2.2369362921 when
position and speed are present, and absent whenever the speed is absent. -/
theorem claim_C9_speed_mph_exact_constant (stops : List (GoStr × Stop))
    (now : GoDate) (v : VehiclePosition) :
    (transformVehicle stops now v).map (fun e => getField e "speed_mph") =
    (transformVehicle stops now v).map (fun _ =>
      (v.position.bind Position.speed).map (fun sp => Value.f32 (sp * mphPerMps))) := by
  obtain ⟨trip, veh, pos, seq, sid, cst, ts, cong, occ⟩ := v
  rcases pos with _ | ⟨la, lo, be, od, sp⟩ <;>
  rcases sid with _ | s <;>
  rcases seq with _ | q <;>
  rcases ts with _ | t <;>
  (try rcases sp with _ | sp0) <;>
  (try rcases la with _ | la0) <;>
  (try rcases lo with _ | lo0) <;>
  simp only [transformVehicle] <;>
  (try split) <;>
  simp [getField_put_eq, getField_put_ne, getField_addTrip_ne,
    getField_addVehicleDescriptors_ne, getField_addStop_ne,
    getField_addUint32IfNotNull_ne, getField_addFloat32IfNotNull_ne,
    getField_addFloat64IfNotNull_ne, getField_addStringIfNotEmpty_ne,
    getField_addStringIfNotNull_ne]

/-! ### Alert identity and translation lemmas -/

theorem putFirstTranslation_id (key : String) (ts? : Option TranslatedString)
    (e ev : Event) (h : putFirstTranslation key ts? e = some ev) : ev.id = e.id := by
  cases ts? with
  | none =>
    simp only [putFirstTranslation, Option.some.injEq] at h
    subst h; rfl
  | some ts =>
    simp only [putFirstTranslation] at h
    rcases Option.map_eq_some'.mp h with ⟨t, hft, rfl⟩
    rfl

theorem putFirstTranslation_present_nonempty (key : String) (ts : TranslatedString)
    (e ev : Event) (h : putFirstTranslation key (some ts) e = some ev) :
    ts.translation ≠ [] := by
  intro hnil
  simp [putFirstTranslation, firstTranslation, hnil] at h

theorem alertEventForEntity_id (now : GoDate) (a : Alert) (trs : List TimeRange)
    (ent : EntitySelector) (ev : Event)
    (h : alertEventForEntity now a trs ent = some ev) : ev.id = informedId a ent := by
  simp only [alertEventForEntity, Option.bind_eq_bind', Option.bind_eq_some,
    Option.some.injEq] at h
  obtain ⟨idStr, hi, e1, hu, e2, hd, e3, hh, hev⟩ := h
  subst hev
  rw [hi]
  simp [putFirstTranslation_id _ _ _ _ hh, putFirstTranslation_id _ _ _ _ hd,
    putFirstTranslation_id _ _ _ _ hu]
  split <;> rfl

theorem alertEventForEntity_localized (now : GoDate) (a : Alert) (trs : List TimeRange)
    (ent : EntitySelector) (ev : Event)
    (h : alertEventForEntity now a trs ent = some ev) : localizedOk a := by
  simp only [alertEventForEntity, Option.bind_eq_bind', Option.bind_eq_some,
    Option.some.injEq] at h
  obtain ⟨idStr, hi, e1, hu, e2, hd, e3, hh, hev⟩ := h
  refine ⟨fun ts hts => ?_, fun ts hts => ?_, fun ts hts => ?_⟩
  · rw [hts] at hu; exact putFirstTranslation_present_nonempty _ _ _ _ hu
  · rw [hts] at hh; exact putFirstTranslation_present_nonempty _ _ _ _ hh
  · rw [hts] at hd; exact putFirstTranslation_present_nonempty _ _ _ _ hd

theorem mapM_alertEvent_ids (now : GoDate) (a : Alert) (trs : List TimeRange) :
    ∀ (ents : List EntitySelector) (evs : List Event),
      List.mapM (alertEventForEntity now a trs) ents = some evs →
      evs.map Event.id = ents.map (informedId a) := by
  intro ents
  induction ents with
  | nil =>
    intro evs h
    simp only [List.mapM_nil, pure, Option.some.injEq] at h
    subst h; rfl
  | cons ent rest ih =>
    intro evs h
    rw [List.mapM_cons] at h
    simp only [Option.bind_eq_bind', Option.bind_eq_some, Option.some.injEq, pure] at h
    obtain ⟨ev, hev, evs2, hrest, hevs⟩ := h
    subst hevs
    simp [alertEventForEntity_id _ _ _ _ _ hev, ih _ hrest]


/-- C4 counterexample: the two informed entities of `aTripsOnly` differ (in
their trip descriptors), yet both output records get the identical identity
(the empty string), refuting "distinct across informed entities whose
agency/route/stop/trip differ". -/
theorem claim_C4_counterexample_trip_not_in_identity :
    (denormalizeAlert d0 aTripsOnly).map (fun evs => evs.map Event.id) =
      some [some [], some []] ∧
    aTripsOnly.informedEntity[0]? ≠ aTripsOnly.informedEntity[1]? :=
  ⟨by decide, by decide⟩

/-- C4 amended: each output record's identity is that informed entity's
agency id ++ route id ++ stop id (absent → empty), followed — when the
description is present — by the rune rendering of the 32-bit FNV-1a hash of
its first translation; the computation is a pure function of the alert
bytes (so byte-identical content gives identical identities), and two
informed entities of the same alert get distinct identities exactly when
their agency/route/stop concatenations differ — the trip descriptor does
not enter the identity. -/
theorem claim_C4_identity_concat_and_hash (now : GoDate) (a : Alert) :
    ((denormalizeAlert now a).map (fun evs => evs.map Event.id) =
      (denormalizeAlert now a).map (fun _ => a.informedEntity.map (informedId a))) ∧
    (∀ e1 ∈ a.informedEntity, ∀ e2 ∈ a.informedEntity, ∀ i1 i2,
      informedId a e1 = some i1 → informedId a e2 = some i2 →
      (i1 = i2 ↔ catIds e1 = catIds e2)) := by
  constructor
  · rcases h : denormalizeAlert now a with _ | evs
    · rfl
    · unfold denormalizeAlert at h
      simp only [Option.map_some', Option.some.injEq]
      exact mapM_alertEvent_ids _ _ _ _ _ h
  · intro e1 h1 e2 h2 i1 i2 hi1 hi2
    unfold informedId at hi1 hi2
    rcases hds : descSuffix a with _ | suf <;> rw [hds] at hi1 hi2
    · simp at hi1
    · simp only [Option.map_some', Option.some.injEq] at hi1 hi2
      subst hi1; subst hi2
      constructor
      · exact fun hh => List.append_cancel_right hh
      · intro hh; rw [hh]

/-- C10 counterexample: an alert whose description text is present with an
EMPTY translation list but which has no informed entities returns normally
(the loop body never runs), refuting "returns normally only when every
present localized string carries at least one translation" as stated for
all alerts. -/
theorem claim_C10_counterexample_no_entities :
    (denormalizeAlert d0 aEmptyDescNoEntities).isSome = true ∧
    ¬ localizedOk aEmptyDescNoEntities :=
  ⟨by decide, fun h => (h.2.2 ⟨[]⟩ rfl) rfl⟩

/-- C10 amended: for an alert with at least one informed entity,
`DenormalizeAlert` returns normally only when every present localized
string (url, header, description) carries at least one translation; and on
a concrete alert whose description is present with an empty translation
list it panics (returns no result) from the unchecked `GetTranslation()[0]`
indexing. -/
theorem claim_C10_first_translation_indexed_unchecked (now : GoDate) (a : Alert) :
    (a.informedEntity ≠ [] → ∀ evs, denormalizeAlert now a = some evs → localizedOk a) ∧
    denormalizeAlert d0 aEmptyDescOneEntity = none := by
  constructor
  · intro hne evs h
    unfold denormalizeAlert at h
    rcases hents : a.informedEntity with _ | ⟨ent, rest⟩
    · exact absurd hents hne
    · rw [hents, List.mapM_cons] at h
      simp only [Option.bind_eq_bind', Option.bind_eq_some] at h
      obtain ⟨ev, hev, _⟩ := h
      exact alertEventForEntity_localized _ _ _ _ _ hev
  · decide

/-! ### Stop-loader lemmas -/

theorem parseStopsRows_ok_rows_good :
    ∀ (rows : List Row) (fpr : Option Nat) (acc : List (GoStr × Stop)),
      (parseStopsRows rows fpr acc).isOk = true → ∀ r ∈ rows, isHeader r ∨ rowOk r := by
  intro rows
  induction rows with
  | nil => intro fpr acc h r hr; simp at hr
  | cons r0 rest ih =>
    intro fpr acc h r hr
    rw [List.mem_cons] at hr
    simp only [parseStopsRows] at h
    split at h
    · simp [StopsResult.isOk] at h
    · cases hc0 : r0.get? 0 with
      | none => simp only [hc0] at h; simp [StopsResult.isOk] at h
      | some c0 =>
        simp only [hc0] at h
        by_cases hhdr : c0 = gs "stop_id"
        · rw [if_pos hhdr] at h
          rcases hr with rfl | hr
          · left; unfold isHeader; rw [hc0, hhdr]
          · exact ih _ _ h r hr
        · rw [if_neg hhdr] at h
          split at h
          · cases h11 : r0.get? 11 with
            | none => simp only [h11] at h; simp [StopsResult.isOk] at h
            | some c11 =>
              simp only [h11] at h
              cases hwb : parseUint64 c11 with
              | none => simp only [hwb] at h; simp [StopsResult.isOk] at h
              | some wb =>
                simp only [hwb] at h
                cases h4 : r0.get? 4 with
                | none => simp only [h4] at h; simp [StopsResult.isOk] at h
                | some c4 =>
                  simp only [h4] at h
                  cases hlat : parseGoFloat c4 with
                  | none => simp only [hlat] at h; simp [StopsResult.isOk] at h
                  | some lat =>
                    simp only [hlat] at h
                    cases h5 : r0.get? 5 with
                    | none => simp only [h5] at h; simp [StopsResult.isOk] at h
                    | some c5 =>
                      simp only [h5] at h
                      cases hlon : parseGoFloat c5 with
                      | none => simp only [hlon] at h; simp [StopsResult.isOk] at h
                      | some lon =>
                        simp only [hlon] at h
                        rcases hr with rfl | hr
                        · refine Or.inr ⟨?_, ?_, ?_⟩ <;>
                            simp [rowOk, ← List.get?_eq_getElem?, h11, hwb, h4,
                              hlat, h5, hlon]
                        · exact ih _ _ h r hr
          · simp [StopsResult.isOk] at h

/-- C8 counterexample: a stop file whose first (and only) row has a single
column is accepted by the csv reader (it fixes the expected field count),
and the loader then panics on the out-of-range `row[1]` index instead of
failing with an error. -/
theorem claim_C8_counterexample_short_first_row_panics :
    parseStops (some shortFirstRow) = .panic := by
  decide

/-- C8 amended: the loader fails with an error (and no map) when the file
cannot be opened or a numeric column fails to parse; a row whose column
count differs from the first row's fails with an error (the partial map is
returned alongside it and discarded by the caller); but a row with fewer
columns than the expected 12 whose count matches the first row's panics
instead of returning an error. There is still no partial-success mode: a
load that returns without error processed every non-header row fully (all
three numeric columns present and parsed). The last conjunct shows the
success case is attainable. -/
theorem claim_C8_row_failure_aborts_load :
    parseStops none = .err none ∧
    (∀ rows, (parseStops (some rows)).isOk = true →
      ∀ r ∈ rows, isHeader r ∨ rowOk r) ∧
    parseStops (some [headerRow, badNumberRow]) = .err none ∧
    parseStops (some [headerRow, elevenColRow]) = .err (some []) ∧
    (parseStops (some [headerRow, goodRow])).isOk = true :=
  ⟨by decide, fun rows h => parseStopsRows_ok_rows_good rows none [] h,
    by decide, by decide, by decide⟩

end Gtfsbeat
